import Mathlib

/-!
Verification development for the `easy_touch` touch engine
(`src/easy_touch.py`, class `Touch`): a shallow embedding of its
coordinate transform, gesture state machine, query API and interactive
calibration procedure, together with theorems about them.

Modelling conventions:
* Python integers are `Int`; Python booleans are `Bool`.
* Python float arithmetic (`self._x_factor = width / (x_max - x_min)` and
  the averages/ratios in calibration) is modelled by exact rational
  arithmetic; `int(...)` truncates toward zero, which on an exact quotient
  of integers is `Int.tdiv`.  All thresholds compared against are exact in
  both models.
* The sticky-flag object state of the `Touch` class is the record
  `TouchState`; methods become state-passing functions `TouchState → α ×
  TouchState`.  The calibration parameters (`x_min … swap_xy`), which the
  Python class stores on the same object, are kept in a separate record
  `CalParams` because the gesture methods never read them and the
  calibration procedure never reads the gesture fields; `width`/`height`
  are passed explicitly.
* Hardware interaction (`machine.SPI`, `machine.Pin`, `machine.Timer`,
  `_raw_touch`) is abstracted as event inputs: an interrupt edge carries
  the pin level and the `Option` result of `_raw_touch`; a timer tick
  carries the `Option` result of `_raw_touch`.
-/

namespace EasyTouch

/-- Touch detection constants (`easy_touch.py` lines 77-79). -/
def MIN_SWIPE_DISTANCE : Int := 30

/-- Maximum movement for a press-release to count as a tap (line 79). -/
def MAX_TAP_DISTANCE : Int := 8

/-- Debounce interval for the IRQ edge handler (line 146). -/
def IRQ_DEBOUNCE_MS : Int := 20

/-- Calibration parameters held by the `Touch` object (`__init__` lines
109-117): raw-coordinate bounds and the axis transform flags.  The float
conversion factors `_x_factor`/`_y_factor` (lines 183-186) are pure
functions of these fields and of `width`/`height`, so they are kept
derived rather than stored. -/
structure CalParams where
  flip_x : Bool
  flip_y : Bool
  swap_xy : Bool
  x_min : Int
  x_max : Int
  y_min : Int
  y_max : Int
deriving DecidableEq, Repr

/-- Default calibration used when no saved file exists (lines 109-117
with an empty `saved_config`; the constructor defaults also set the three
flags to `True`, but C8's scenario overrides them to `False`). -/
def defaultBounds (fx fy sw : Bool) : CalParams :=
  { flip_x := fx, flip_y := fy, swap_xy := sw,
    x_min := 100, x_max := 1962, y_min := 100, y_max := 1900 }

/-- `Touch._normalize` (lines 231-250): convert raw coordinates to screen
coordinates.  Faithful step order: optional swap of the raw pair, linear
rescale through the float factors (exact here, `int()` = truncation
toward zero), optional flips on the screen values, then clamping.  -/
def Touch.normalize (width height : Int) (p : CalParams) (x_raw y_raw : Int) :
    Int × Int :=
  let xr := if p.swap_xy then y_raw else x_raw
  let yr := if p.swap_xy then x_raw else y_raw
  let sx0 := Int.tdiv ((xr - p.x_min) * width) (p.x_max - p.x_min)
  let sy0 := Int.tdiv ((yr - p.y_min) * height) (p.y_max - p.y_min)
  let sx1 := if p.flip_x then width - 1 - sx0 else sx0
  let sy1 := if p.flip_y then height - 1 - sy0 else sy0
  (max 0 (min sx1 (width - 1)), max 0 (min sy1 (height - 1)))

/-- Stage 1 of the specification's pipeline for `normalize`: swap the raw
values when `swap_xy` is set (spec §4.2 step 1). -/
def spec_swap_stage (p : CalParams) (xy : Int × Int) : Int × Int :=
  if p.swap_xy then (xy.2, xy.1) else xy

/-- Stage 2 of the specification's pipeline: linear rescale of raw values
into screen space (spec §4.2 step 2), truncating like Python `int`. -/
def spec_rescale_stage (width height : Int) (p : CalParams) (xy : Int × Int) :
    Int × Int :=
  (Int.tdiv ((xy.1 - p.x_min) * width) (p.x_max - p.x_min),
   Int.tdiv ((xy.2 - p.y_min) * height) (p.y_max - p.y_min))

/-- Stage 3 of the specification's pipeline: mirror the screen values when
the flip flags are set (spec §4.2 step 3). -/
def spec_flip_stage (width height : Int) (p : CalParams) (xy : Int × Int) :
    Int × Int :=
  ((if p.flip_x then width - 1 - xy.1 else xy.1),
   (if p.flip_y then height - 1 - xy.2 else xy.2))

/-- Stage 4 of the specification's pipeline: clamp both outputs to
`[0, dimension - 1]` (spec §4.2 step 4). -/
def spec_clamp_stage (width height : Int) (xy : Int × Int) : Int × Int :=
  (max 0 (min xy.1 (width - 1)), max 0 (min xy.2 (height - 1)))

lemma clamp_nonneg_lt (w s : Int) (hw : 0 < w) :
    0 ≤ max 0 (min s (w - 1)) ∧ max 0 (min s (w - 1)) < w := by
  omega

/-- Claim C1: for calibration parameters with `x_max > x_min` and
`y_max > y_min` and any integer raw input, `_normalize` is exactly the
pipeline swap-then-rescale-then-flip-then-clamp, and its output always
lies in `[0, width) × [0, height)`. -/
theorem normalize_pipeline_order_and_range (width height : Int) (p : CalParams)
    (x_raw y_raw : Int) (hx : p.x_min < p.x_max) (hy : p.y_min < p.y_max)
    (hw : 0 < width) (hh : 0 < height) :
    Touch.normalize width height p x_raw y_raw =
      spec_clamp_stage width height
        (spec_flip_stage width height p
          (spec_rescale_stage width height p
            (spec_swap_stage p (x_raw, y_raw)))) ∧
    0 ≤ (Touch.normalize width height p x_raw y_raw).1 ∧
    (Touch.normalize width height p x_raw y_raw).1 < width ∧
    0 ≤ (Touch.normalize width height p x_raw y_raw).2 ∧
    (Touch.normalize width height p x_raw y_raw).2 < height := by
  refine ⟨?_, ?_, ?_, ?_, ?_⟩
  · unfold Touch.normalize spec_clamp_stage spec_flip_stage
      spec_rescale_stage spec_swap_stage
    cases p.swap_xy <;> simp
  all_goals
    unfold Touch.normalize
    cases p.swap_xy <;> cases p.flip_x <;> cases p.flip_y <;> simp <;> omega

/-- Witness for C1 at the default calibration on a 320×240 screen. -/
theorem normalize_pipeline_order_and_range_witness :
    (defaultBounds false false false).x_min < (defaultBounds false false false).x_max ∧
    (defaultBounds false false false).y_min < (defaultBounds false false false).y_max ∧
    (0 : Int) < 320 ∧ (0 : Int) < 240 ∧
    (Touch.normalize 320 240 (defaultBounds false false false) 1000 1000 =
      spec_clamp_stage 320 240
        (spec_flip_stage 320 240 (defaultBounds false false false)
          (spec_rescale_stage 320 240 (defaultBounds false false false)
            (spec_swap_stage (defaultBounds false false false) (1000, 1000)))) ∧
    0 ≤ (Touch.normalize 320 240 (defaultBounds false false false) 1000 1000).1 ∧
    (Touch.normalize 320 240 (defaultBounds false false false) 1000 1000).1 < 320 ∧
    0 ≤ (Touch.normalize 320 240 (defaultBounds false false false) 1000 1000).2 ∧
    (Touch.normalize 320 240 (defaultBounds false false false) 1000 1000).2 < 240) :=
  ⟨by decide, by decide, by decide, by decide,
   normalize_pipeline_order_and_range 320 240 (defaultBounds false false false)
     1000 1000 (by decide) (by decide) (by decide) (by decide)⟩

/-- Mutable event/gesture state of the `Touch` object, exactly the fields
initialised in `__init__` lines 126-150 (calibration fields excluded, see
the module comment).  `_timer_active` models the hardware `Timer` being
initialised/deinitialised; `_last_irq_time` holds millisecond ticks. -/
structure TouchState where
  _was_touched : Bool
  _was_swiped_up : Bool
  _was_swiped_down : Bool
  _was_swiped_left : Bool
  _was_swiped_right : Bool
  _last_touch_x : Int
  _last_touch_y : Int
  _current_touch_x : Int
  _current_touch_y : Int
  _is_currently_touched : Bool
  _touch_count : Int
  _touch_down : Bool
  _start_x : Int
  _start_y : Int
  _touch_positions : List (Int × Int × Int)
  _last_irq_time : Int
  _timer_active : Bool
deriving DecidableEq, Repr

/-- The field values assigned by `__init__` lines 126-150. -/
def Touch.initState : TouchState :=
  { _was_touched := false
    _was_swiped_up := false
    _was_swiped_down := false
    _was_swiped_left := false
    _was_swiped_right := false
    _last_touch_x := -1
    _last_touch_y := -1
    _current_touch_x := -1
    _current_touch_y := -1
    _is_currently_touched := false
    _touch_count := 0
    _touch_down := false
    _start_x := 0
    _start_y := 0
    _touch_positions := []
    _last_irq_time := 0
    _timer_active := false }

/-- `Touch.__init__` (lines 91-155) with the hardware abstracted: the
constructor body assigns the dimensions and calibration fields, then calls
`_setup_touch()` (line 123) with NO surrounding try/except, so when the
SPI/pin construction raises, the exception propagates out of the
constructor; only when setup succeeds are the event fields of
`Touch.initState` assigned.  `setup_raises` abstracts whether the
hardware construction in `_setup_touch` (lines 188-200) raises. -/
def Touch.init (setup_raises : Bool) : Except Unit TouchState :=
  if setup_raises then Except.error () else Except.ok Touch.initState

/-- `Touch.is_touched` (lines 371-382): live read, consumes nothing. -/
def Touch.is_touched (s : TouchState) : Option (Int × Int) :=
  if s._is_currently_touched then some (s._current_touch_x, s._current_touch_y)
  else none

/-- `Touch.was_touched` (lines 384-396): return and clear the sticky tap
flag. -/
def Touch.was_touched (s : TouchState) : Bool × TouchState :=
  if s._was_touched then (true, { s with _was_touched := false })
  else (false, s)

/-- `Touch.get_touches` (lines 398-410): return the tap counter and reset
it to zero. -/
def Touch.get_touches (s : TouchState) : Int × TouchState :=
  (s._touch_count, { s with _touch_count := 0 })

/-- Python's `str.lower()` as used by `was_swiped` on its direction
argument (lines 445-452): per-character lowercasing.  (`String.toLower`
itself is not reducible in proofs, so the same map is written over the
character list; the compared literals are all ASCII.) -/
def lower (s : String) : String := ⟨s.data.map Char.toLower⟩

/-- The `x <= px <= x + w and y <= py <= y + h` membership test used on
lines 434-435 for a bounds rectangle `(x, y, w, h)`. -/
def in_rect : Int × Int × Int × Int → Int → Int → Bool
  | (x, y, w, h), px, py =>
      decide (x ≤ px ∧ px ≤ x + w ∧ y ≤ py ∧ py ≤ y + h)

/-- `Touch.was_swiped` (lines 412-464).  `direction` is the optional
direction string (compared through `.lower()`, modelled by
`lower`); `bounds` is the optional `(x, y, w, h)` rectangle.
Mirrors the source's early returns: no latched swipe → `False`; bounds
given and either endpoint outside → `False`; unknown direction string →
`False`; on a match all four directional flags are cleared. -/
def Touch.was_swiped (s : TouchState) (direction : Option String)
    (bounds : Option (Int × Int × Int × Int)) : Bool × TouchState :=
  let any_swipe := s._was_swiped_left || s._was_swiped_right ||
    s._was_swiped_up || s._was_swiped_down
  if !any_swipe then (false, s)
  else
    let bounds_ok :=
      match bounds with
      | none => true
      | some r =>
          in_rect r s._start_x s._start_y &&
          in_rect r s._last_touch_x s._last_touch_y
    if !bounds_ok then (false, s)
    else
      -- `some result` from the direction dispatch on lines 442-452;
      -- `none` is the invalid-direction early `return False` (line 455).
      let result? : Option Bool :=
        match direction with
        | none => some any_swipe
        | some d =>
            if lower d == "left" then some s._was_swiped_left
            else if lower d == "right" then some s._was_swiped_right
            else if lower d == "up" then some s._was_swiped_up
            else if lower d == "down" then some s._was_swiped_down
            else none
      match result? with
      | none => (false, s)
      | some result =>
          if result then
            (result, { s with _was_swiped_left := false,
                              _was_swiped_right := false,
                              _was_swiped_up := false,
                              _was_swiped_down := false })
          else (result, s)

/-- `Touch._process_gesture` (lines 329-367): classify the completed
trajectory from its first and last recorded points.  The float comparison
`(dx*dx + dy*dy)**0.5 <= 8` (resp. `>= 30`) is modelled exactly by
comparing the squared displacement against `8*8` (resp. `30*30`): square
root is monotone and both thresholds are exact. -/
def Touch.process_gesture (s : TouchState) : TouchState :=
  match s._touch_positions with
  | [] => s
  | p0 :: rest =>
      let start_x := p0.1
      let start_y := p0.2.1
      let plast := (p0 :: rest).getLast (by simp)
      let end_x := plast.1
      let end_y := plast.2.1
      let s1 := { s with _start_x := start_x, _start_y := start_y,
                         _last_touch_x := end_x, _last_touch_y := end_y }
      let dx := end_x - start_x
      let dy := end_y - start_y
      let dist2 := dx * dx + dy * dy
      if dist2 ≤ MAX_TAP_DISTANCE * MAX_TAP_DISTANCE then
        { s1 with _was_touched := true, _touch_count := s1._touch_count + 1 }
      else if MIN_SWIPE_DISTANCE * MIN_SWIPE_DISTANCE ≤ dist2 then
        if |dy| < |dx| then
          if 0 < dx then { s1 with _was_swiped_right := true }
          else { s1 with _was_swiped_left := true }
        else
          if 0 < dy then { s1 with _was_swiped_down := true }
          else { s1 with _was_swiped_up := true }
      else
        -- between 8 and 30 pixels: dead zone, no event
        s1

/-- The four swipe directions distinguished by `_process_gesture`. -/
inductive Dir
  | left
  | right
  | up
  | down
deriving DecidableEq, Repr

/-- The sticky directional flag of `s` for a given direction. -/
def dirFlag (s : TouchState) : Dir → Bool
  | .left => s._was_swiped_left
  | .right => s._was_swiped_right
  | .up => s._was_swiped_up
  | .down => s._was_swiped_down

/-- Direction chosen by `_process_gesture` lines 354-366: horizontal
dominant picks left/right by the sign of `dx`, vertical dominant (ties
included) picks up/down by the sign of `dy`. -/
def swipe_dir (dx dy : Int) : Dir :=
  if |dy| < |dx| then (if 0 < dx then .right else .left)
  else (if 0 < dy then .down else .up)

/-- Squared Euclidean displacement between two points; the float
comparisons `distance <= 8` / `distance >= 30` of the source are
equivalent to comparing this against `64` / `900`. -/
def disp2 (x0 y0 x1 y1 : Int) : Int :=
  (x1 - x0) * (x1 - x0) + (y1 - y0) * (y1 - y0)

/-- The classification contract of `_process_gesture` for a trajectory
running from `(x0, y0)` to `(x1, y1)`: displacement at most `TAP_MAX`
sets the tap flag and increments the tap counter leaving all swipe flags
alone; displacement at least `SWIPE_MIN` sets exactly the flag of
`swipe_dir` leaving the other three and the tap state alone; strictly
between the thresholds nothing is latched at all. -/
def gestureClassified (s : TouchState) (x0 y0 x1 y1 : Int) : Prop :=
  (disp2 x0 y0 x1 y1 ≤ MAX_TAP_DISTANCE * MAX_TAP_DISTANCE →
    (Touch.process_gesture s)._was_touched = true ∧
    (Touch.process_gesture s)._touch_count = s._touch_count + 1 ∧
    ∀ d, dirFlag (Touch.process_gesture s) d = dirFlag s d) ∧
  (MIN_SWIPE_DISTANCE * MIN_SWIPE_DISTANCE ≤ disp2 x0 y0 x1 y1 →
    (Touch.process_gesture s)._was_touched = s._was_touched ∧
    (Touch.process_gesture s)._touch_count = s._touch_count ∧
    dirFlag (Touch.process_gesture s) (swipe_dir (x1 - x0) (y1 - y0)) = true ∧
    ∀ d, d ≠ swipe_dir (x1 - x0) (y1 - y0) →
      dirFlag (Touch.process_gesture s) d = dirFlag s d) ∧
  (MAX_TAP_DISTANCE * MAX_TAP_DISTANCE < disp2 x0 y0 x1 y1 →
    disp2 x0 y0 x1 y1 < MIN_SWIPE_DISTANCE * MIN_SWIPE_DISTANCE →
    (Touch.process_gesture s)._was_touched = s._was_touched ∧
    (Touch.process_gesture s)._touch_count = s._touch_count ∧
    ∀ d, dirFlag (Touch.process_gesture s) d = dirFlag s d)

/-- Claim C5: gesture classification at release depends only on the
displacement between the trajectory's first and last points, with tap at
`≤ 8` px, one directional swipe flag at `≥ 30` px, and a silent dead zone
strictly in between. -/
theorem process_gesture_classification (s : TouchState)
    (x0 y0 t0 x1 y1 t1 : Int)
    (hhead : s._touch_positions.head? = some (x0, y0, t0))
    (hlast : s._touch_positions.getLast? = some (x1, y1, t1)) :
    gestureClassified s x0 y0 x1 y1 := by
  cases hp : s._touch_positions with
  | nil => rw [hp] at hhead; exact absurd hhead (by simp)
  | cons p rest =>
    rw [hp] at hhead hlast
    have hpv : p = (x0, y0, t0) := by
      simpa using hhead
    subst hpv
    have hl : ((x0, y0, t0) :: rest).getLast (by simp) = (x1, y1, t1) := by
      rw [List.getLast?_eq_getLast ((x0, y0, t0) :: rest) (by simp)] at hlast
      exact Option.some.inj hlast
    unfold gestureClassified Touch.process_gesture
    simp only [hp]
    rw [hl]
    dsimp only
    refine ⟨?_, ?_, ?_⟩
    · intro htap
      rw [if_pos (by simpa [disp2] using htap)]
      refine ⟨rfl, rfl, ?_⟩
      intro d
      cases d <;> rfl
    · intro hswipe
      have hnottap :
          ¬ ((x1 - x0) * (x1 - x0) + (y1 - y0) * (y1 - y0)
              ≤ MAX_TAP_DISTANCE * MAX_TAP_DISTANCE) := by
        simp only [disp2, MAX_TAP_DISTANCE, MIN_SWIPE_DISTANCE] at hswipe ⊢
        omega
      rw [if_neg hnottap, if_pos (by simpa [disp2] using hswipe)]
      by_cases hdom : |y1 - y0| < |x1 - x0|
      · by_cases hpos : 0 < x1 - x0
        · rw [if_pos hdom, if_pos hpos]
          refine ⟨rfl, rfl, ?_, ?_⟩
          · simp [swipe_dir, hdom, hpos, dirFlag]
          · intro d hd
            simp only [swipe_dir, if_pos hdom, if_pos hpos] at hd
            cases d <;> simp_all [dirFlag]
        · rw [if_pos hdom, if_neg hpos]
          refine ⟨rfl, rfl, ?_, ?_⟩
          · simp [swipe_dir, hdom, hpos, dirFlag]
          · intro d hd
            simp only [swipe_dir, if_pos hdom, if_neg hpos] at hd
            cases d <;> simp_all [dirFlag]
      · by_cases hpos : 0 < y1 - y0
        · rw [if_neg hdom, if_pos hpos]
          refine ⟨rfl, rfl, ?_, ?_⟩
          · simp [swipe_dir, hdom, hpos, dirFlag]
          · intro d hd
            simp only [swipe_dir, if_neg hdom, if_pos hpos] at hd
            cases d <;> simp_all [dirFlag]
        · rw [if_neg hdom, if_neg hpos]
          refine ⟨rfl, rfl, ?_, ?_⟩
          · simp [swipe_dir, hdom, hpos, dirFlag]
          · intro d hd
            simp only [swipe_dir, if_neg hdom, if_neg hpos] at hd
            cases d <;> simp_all [dirFlag]
    · intro hgt hlt
      have hnottap :
          ¬ ((x1 - x0) * (x1 - x0) + (y1 - y0) * (y1 - y0)
              ≤ MAX_TAP_DISTANCE * MAX_TAP_DISTANCE) := by
        simp only [disp2, MAX_TAP_DISTANCE] at hgt ⊢
        omega
      have hnotswipe :
          ¬ (MIN_SWIPE_DISTANCE * MIN_SWIPE_DISTANCE
              ≤ (x1 - x0) * (x1 - x0) + (y1 - y0) * (y1 - y0)) := by
        simp only [disp2, MIN_SWIPE_DISTANCE] at hlt ⊢
        omega
      rw [if_neg hnottap, if_neg hnotswipe]
      refine ⟨rfl, rfl, ?_⟩
      intro d
      cases d <;> rfl

/-- A fresh state holding a completed 8-pixel trajectory, for the C5
witness. -/
def tapTrajState : TouchState :=
  { Touch.initState with _touch_positions := [(0, 0, 0), (8, 0, 1)] }

/-- Witness for C5 on a trajectory of displacement exactly 8 pixels. -/
theorem process_gesture_classification_witness :
    tapTrajState._touch_positions.head? = some (0, 0, 0) ∧
    tapTrajState._touch_positions.getLast? = some (8, 0, 1) ∧
    gestureClassified tapTrajState 0 0 8 0 :=
  ⟨rfl, rfl, process_gesture_classification tapTrajState 0 0 0 8 0 1 rfl rfl⟩

/-- A state with only the left-swipe sticky flag latched and a recorded
swipe from (10,10) to (50,12); used as concrete input by witnesses. -/
def leftLatchedState : TouchState :=
  { Touch.initState with
    _was_swiped_left := true,
    _start_x := 10,
    _start_y := 10,
    _last_touch_x := 50,
    _last_touch_y := 12 }

lemma was_swiped_bounds_fail (s : TouchState) (d : Option String)
    (r : Int × Int × Int × Int)
    (h : (in_rect r s._start_x s._start_y &&
          in_rect r s._last_touch_x s._last_touch_y) = false) :
    Touch.was_swiped s d (some r) = (false, s) := by
  unfold Touch.was_swiped
  by_cases hA : (s._was_swiped_left || s._was_swiped_right ||
      s._was_swiped_up || s._was_swiped_down) = true
  · simp [hA, h]
  · simp only [Bool.not_eq_true] at hA
    simp [hA]

/-- Claim C7: with the tap flag latched, `was_touched()` returns `True`
and clears the flag, so an immediate second call returns `False`. -/
theorem was_touched_true_then_false (s : TouchState)
    (h : s._was_touched = true) :
    (Touch.was_touched s).1 = true ∧
    (Touch.was_touched (Touch.was_touched s).2).1 = false := by
  simp [Touch.was_touched, h]

/-- Witness for C7 on a concrete latched state. -/
theorem was_touched_true_then_false_witness :
    ({ Touch.initState with _was_touched := true } : TouchState)._was_touched
        = true ∧
    ((Touch.was_touched { Touch.initState with _was_touched := true }).1 = true ∧
     (Touch.was_touched
        (Touch.was_touched
          { Touch.initState with _was_touched := true }).2).1 = false) :=
  ⟨rfl, was_touched_true_then_false _ rfl⟩

/-- Claim C4: from a state with only the left flag latched,
`was_swiped(direction='right')` returns `False` and leaves the state
(including the left flag) unchanged; `was_swiped(direction='left')`
returns `True` and clears all four directional flags, after which
`was_swiped` returns `False` for every direction and bounds argument. -/
theorem was_swiped_directional_coupling (s : TouchState)
    (hL : s._was_swiped_left = true) (hR : s._was_swiped_right = false)
    (hU : s._was_swiped_up = false) (hD : s._was_swiped_down = false) :
    Touch.was_swiped s (some "right") none = (false, s) ∧
    (Touch.was_swiped s (some "left") none).1 = true ∧
    ((Touch.was_swiped s (some "left") none).2)._was_swiped_left = false ∧
    ((Touch.was_swiped s (some "left") none).2)._was_swiped_right = false ∧
    ((Touch.was_swiped s (some "left") none).2)._was_swiped_up = false ∧
    ((Touch.was_swiped s (some "left") none).2)._was_swiped_down = false ∧
    ∀ (d : Option String) (b : Option (Int × Int × Int × Int)),
      (Touch.was_swiped ((Touch.was_swiped s (some "left") none).2) d b).1
        = false := by
  have hl : (lower "left" == "left") = true := by decide
  have hr1 : (lower "right" == "left") = false := by decide
  have hr2 : (lower "right" == "right") = true := by decide
  refine ⟨?_, ?_, ?_, ?_, ?_, ?_, ?_⟩
  · simp [Touch.was_swiped, hL, hR, hU, hD, hr1, hr2]
  · simp [Touch.was_swiped, hL, hR, hU, hD, hl]
  · simp [Touch.was_swiped, hL, hR, hU, hD, hl]
  · simp [Touch.was_swiped, hL, hR, hU, hD, hl]
  · simp [Touch.was_swiped, hL, hR, hU, hD, hl]
  · simp [Touch.was_swiped, hL, hR, hU, hD, hl]
  · intro d b
    simp [Touch.was_swiped, hL, hR, hU, hD, hl]

/-- Witness for C4 on the concrete left-latched state. -/
theorem was_swiped_directional_coupling_witness :
    leftLatchedState._was_swiped_left = true ∧
    leftLatchedState._was_swiped_right = false ∧
    leftLatchedState._was_swiped_up = false ∧
    leftLatchedState._was_swiped_down = false ∧
    (Touch.was_swiped leftLatchedState (some "right") none
        = (false, leftLatchedState) ∧
     (Touch.was_swiped leftLatchedState (some "left") none).1 = true ∧
     ((Touch.was_swiped leftLatchedState (some "left") none).2)._was_swiped_left
        = false ∧
     ((Touch.was_swiped leftLatchedState (some "left") none).2)._was_swiped_right
        = false ∧
     ((Touch.was_swiped leftLatchedState (some "left") none).2)._was_swiped_up
        = false ∧
     ((Touch.was_swiped leftLatchedState (some "left") none).2)._was_swiped_down
        = false ∧
     ∀ (d : Option String) (b : Option (Int × Int × Int × Int)),
       (Touch.was_swiped
          ((Touch.was_swiped leftLatchedState (some "left") none).2) d b).1
         = false) :=
  ⟨rfl, rfl, rfl, rfl,
   was_swiped_directional_coupling leftLatchedState rfl rfl rfl rfl⟩

/-- Claim C6: a bounds-constrained `was_swiped` matches only when both
the recorded start point and the recorded end point are inside the
rectangle; in particular, start inside but end outside yields `False`. -/
theorem was_swiped_bounds_both_endpoints (s : TouchState)
    (d : Option String) (r : Int × Int × Int × Int) :
    ((Touch.was_swiped s d (some r)).1 = true →
      in_rect r s._start_x s._start_y = true ∧
      in_rect r s._last_touch_x s._last_touch_y = true) ∧
    (in_rect r s._start_x s._start_y = true →
      in_rect r s._last_touch_x s._last_touch_y = false →
      (Touch.was_swiped s d (some r)).1 = false) := by
  constructor
  · intro h1
    by_cases hb : (in_rect r s._start_x s._start_y &&
        in_rect r s._last_touch_x s._last_touch_y) = true
    · exact And.imp_left id (Bool.and_eq_true _ _ |>.mp hb) |>.imp_right id
        |>.elim fun a b => ⟨a, b⟩
    · rw [Bool.not_eq_true] at hb
      rw [was_swiped_bounds_fail s d r hb] at h1
      exact absurd h1 (by simp)
  · intro hs he
    have hb : (in_rect r s._start_x s._start_y &&
        in_rect r s._last_touch_x s._last_touch_y) = false := by
      simp [hs, he]
    rw [was_swiped_bounds_fail s d r hb]

/-- Witness for C6: a latched left swipe starting inside the rectangle
(0,0,20,20) but ending outside it does not match. -/
theorem was_swiped_bounds_both_endpoints_witness :
    in_rect (0, 0, 20, 20) leftLatchedState._start_x leftLatchedState._start_y
      = true ∧
    in_rect (0, 0, 20, 20) leftLatchedState._last_touch_x
      leftLatchedState._last_touch_y = false ∧
    (Touch.was_swiped leftLatchedState none (some (0, 0, 20, 20))).1 = false :=
  ⟨by decide, by decide,
   (was_swiped_bounds_both_endpoints leftLatchedState none (0, 0, 20, 20)).2
     (by decide) (by decide)⟩

/-- Claim C10: `was_swiped` with a direction string that is not one of
`left`/`right`/`up`/`down` after lowercasing returns `False` and leaves
the whole state unchanged, whatever flags are latched and whatever the
bounds argument is. -/
theorem was_swiped_invalid_direction (s : TouchState) (d : String)
    (b : Option (Int × Int × Int × Int))
    (h1 : lower d ≠ "left") (h2 : lower d ≠ "right")
    (h3 : lower d ≠ "up") (h4 : lower d ≠ "down") :
    Touch.was_swiped s (some d) b = (false, s) := by
  have e1 : (lower d == "left") = false := by simp [h1]
  have e2 : (lower d == "right") = false := by simp [h2]
  have e3 : (lower d == "up") = false := by simp [h3]
  have e4 : (lower d == "down") = false := by simp [h4]
  unfold Touch.was_swiped
  simp only [e1, e2, e3, e4, Bool.false_eq_true, if_false]
  split
  · rfl
  · split
    · rfl
    · rfl

/-- Witness for C10: an unknown direction string on the left-latched
state returns `False` and changes nothing. -/
theorem was_swiped_invalid_direction_witness :
    (lower "diagonal" ≠ "left") ∧ (lower "diagonal" ≠ "right") ∧
    (lower "diagonal" ≠ "up") ∧ (lower "diagonal" ≠ "down") ∧
    Touch.was_swiped leftLatchedState (some "diagonal") none
      = (false, leftLatchedState) :=
  ⟨by decide, by decide, by decide, by decide,
   was_swiped_invalid_direction leftLatchedState "diagonal" none
     (by decide) (by decide) (by decide) (by decide)⟩

/-- Counterexample to claim C2: hardware setup failure during
construction is NOT absorbed — `__init__` calls `_setup_touch()` with no
exception handler, so construction fails instead of degrading to a dummy
engine. -/
theorem init_setup_failure_propagates :
    Touch.init true = Except.error () := rfl

/-- Claim C2 amended: when setup raises, the exception propagates out of
the constructor (there is no dummy mode); when setup succeeds, the query
methods of the freshly constructed engine all report "nothing happening"
(None / False / 0 / False) without raising. -/
theorem init_propagates_and_fresh_queries_report_nothing :
    (∀ b : Bool, Touch.init b =
      if b then Except.error () else Except.ok Touch.initState) ∧
    Touch.is_touched Touch.initState = none ∧
    (Touch.was_touched Touch.initState).1 = false ∧
    (Touch.get_touches Touch.initState).1 = 0 ∧
    ∀ (d : Option String) (b : Option (Int × Int × Int × Int)),
      (Touch.was_swiped Touch.initState d b).1 = false :=
  ⟨fun b => by cases b <;> rfl, rfl, rfl, rfl, fun d b => rfl⟩

/-- Python `int()` applied to an exact rational value: truncation toward
zero. -/
def pyint (q : ℚ) : Int := Int.tdiv q.num (q.den : Int)

/-- The parameter computation of `_auto_calibrate_with_display` lines
590-677, run once all five target points were captured (so that
`len(raw_points) >= 4` holds): infer `swap_xy` from the corner raw
ranges, extrapolate the (possibly swapped) corner bounds from the inset
calibration rectangle (280×200 at margin 20) to the full screen, and
infer the flips from the corner averages.  `r0 … r3` are the averaged
raw corner samples (top-left, top-right, bottom-right, bottom-left) and
`r4` the centre sample, which the computation never reads.  Float
ratios/averages are exact rationals here; `int()` is `pyint`. -/
def compute_calibration (r0 r1 r2 r3 r4 : Int × Int) : CalParams :=
  -- STEP 1 (lines 592-599)
  let raw_x_range := max (max r0.1 r1.1) (max r2.1 r3.1) -
    min (min r0.1 r1.1) (min r2.1 r3.1)
  let raw_y_range := max (max r0.2 r1.2) (max r2.2 r3.2) -
    min (min r0.2 r1.2) (min r2.2 r3.2)
  let swap_xy := decide (raw_x_range < raw_y_range)
  -- STEP 2 (lines 601-642)
  let t0 := if swap_xy then (r0.2, r0.1) else r0
  let t1 := if swap_xy then (r1.2, r1.1) else r1
  let t2 := if swap_xy then (r2.2, r2.1) else r2
  let t3 := if swap_xy then (r3.2, r3.1) else r3
  let raw_x_min := min (min t0.1 t1.1) (min t2.1 t3.1)
  let raw_x_max := max (max t0.1 t1.1) (max t2.1 t3.1)
  let raw_y_min := min (min t0.2 t1.2) (min t2.2 t3.2)
  let raw_y_max := max (max t0.2 t1.2) (max t2.2 t3.2)
  let raw_width := raw_x_max - raw_x_min
  let raw_height := raw_y_max - raw_y_min
  let raw_per_screen_x : ℚ := (raw_width : ℚ) / 280
  let raw_per_screen_y : ℚ := (raw_height : ℚ) / 200
  let x_min := pyint ((raw_x_min : ℚ) - 20 * raw_per_screen_x)
  let x_max := pyint ((raw_x_max : ℚ) + 20 * raw_per_screen_x)
  let y_min := pyint ((raw_y_min : ℚ) - 20 * raw_per_screen_y)
  let y_max := pyint ((raw_y_max : ℚ) + 20 * raw_per_screen_y)
  -- STEP 3 (lines 644-674), on the original raw corner points
  let left_raw_x : ℚ :=
    if swap_xy then ((r0.2 : ℚ) + (r3.2 : ℚ)) / 2
    else ((r0.1 : ℚ) + (r3.1 : ℚ)) / 2
  let right_raw_x : ℚ :=
    if swap_xy then ((r1.2 : ℚ) + (r2.2 : ℚ)) / 2
    else ((r1.1 : ℚ) + (r2.1 : ℚ)) / 2
  let flip_x := decide (right_raw_x < left_raw_x)
  let top_raw_y : ℚ :=
    if swap_xy then ((r0.1 : ℚ) + (r1.1 : ℚ)) / 2
    else ((r0.2 : ℚ) + (r1.2 : ℚ)) / 2
  let bottom_raw_y : ℚ :=
    if swap_xy then ((r2.1 : ℚ) + (r3.1 : ℚ)) / 2
    else ((r2.2 : ℚ) + (r3.2 : ℚ)) / 2
  let flip_y := decide (bottom_raw_y < top_raw_y)
  { flip_x := flip_x, flip_y := flip_y, swap_xy := swap_xy,
    x_min := x_min, x_max := x_max, y_min := y_min, y_max := y_max }

/-- `Touch._auto_calibrate_with_display` (lines 506-702) with the display
guidance and the interactive hold loops abstracted: `captures i` is the
averaged raw sample of target `i`s successful hold (lines 574-583), or
`none` when the point could not be captured, in which case the procedure
returns `False` on the spot (lines 584-587) before any parameter field is
assigned.  The five targets are processed in order; with all five
captured, `len(raw_points) >= 4` holds and the parameters are replaced
wholesale by the lines 590-677 computation (then persisted).  The
`r4`/centre sample is collected but unused. -/
def Touch.auto_calibrate_with_display (captures : Fin 5 → Option (Int × Int))
    (p : CalParams) : Bool × CalParams :=
  match captures 0 with
  | none => (false, p)
  | some r0 =>
      match captures 1 with
      | none => (false, p)
      | some r1 =>
          match captures 2 with
          | none => (false, p)
          | some r2 =>
              match captures 3 with
              | none => (false, p)
              | some r3 =>
                  match captures 4 with
                  | none => (false, p)
                  | some r4 => (true, compute_calibration r0 r1 r2 r3 r4)

/-- How many of the five target points a run of the calibration procedure
captures: the procedure moves through the targets in order and aborts at
the first failed hold. -/
def captured_count (captures : Fin 5 → Option (Int × Int)) : Nat :=
  if (captures 0).isNone then 0
  else if (captures 1).isNone then 1
  else if (captures 2).isNone then 2
  else if (captures 3).isNone then 3
  else if (captures 4).isNone then 4
  else 5

/-- Claim C3: a calibration run that captures fewer than 4 of the 5
target points reports failure and leaves every prior calibration
parameter unchanged, so `normalize` behaves exactly as before the
attempt. -/
theorem auto_calibrate_failure_preserves_params
    (captures : Fin 5 → Option (Int × Int)) (p : CalParams)
    (width height x_raw y_raw : Int)
    (hcap : captured_count captures < 4) :
    (Touch.auto_calibrate_with_display captures p).1 = false ∧
    (Touch.auto_calibrate_with_display captures p).2 = p ∧
    Touch.normalize width height
        (Touch.auto_calibrate_with_display captures p).2 x_raw y_raw =
      Touch.normalize width height p x_raw y_raw := by
  have hfail : Touch.auto_calibrate_with_display captures p = (false, p) := by
    unfold Touch.auto_calibrate_with_display
    unfold captured_count at hcap
    cases h0 : captures 0 with
    | none => rfl
    | some r0 =>
      cases h1 : captures 1 with
      | none => rfl
      | some r1 =>
        cases h2 : captures 2 with
        | none => rfl
        | some r2 =>
          cases h3 : captures 3 with
          | none => rfl
          | some r3 =>
            rw [h0, h1, h2, h3] at hcap
            simp only [Option.isNone_some, Bool.false_eq_true, if_false] at hcap
            split at hcap <;> omega
  rw [hfail]
  exact ⟨rfl, rfl, rfl⟩

/-- Witness for C3: a run whose first three holds succeed and whose
fourth fails (3 of 5 captured). -/
theorem auto_calibrate_failure_preserves_params_witness :
    captured_count
        (fun i => if i.val < 3 then some (500, 600) else none) < 4 ∧
    ((Touch.auto_calibrate_with_display
        (fun i => if i.val < 3 then some (500, 600) else none)
        (defaultBounds true true true)).1 = false ∧
     (Touch.auto_calibrate_with_display
        (fun i => if i.val < 3 then some (500, 600) else none)
        (defaultBounds true true true)).2 = defaultBounds true true true ∧
     Touch.normalize 320 240
        (Touch.auto_calibrate_with_display
          (fun i => if i.val < 3 then some (500, 600) else none)
          (defaultBounds true true true)).2 1000 1200 =
       Touch.normalize 320 240 (defaultBounds true true true) 1000 1200) :=
  ⟨by decide,
   auto_calibrate_failure_preserves_params
     (fun i => if i.val < 3 then some (500, 600) else none)
     (defaultBounds true true true) 320 240 1000 1200 (by decide)⟩

/-- Asynchronous triggers driving the gesture state machine: an edge on
the contact-detect pin (`_touch_irq_handler`, carrying the tick count,
the pin level — low means contact — and the `_raw_touch()` result read
inside the handler), or a firing of the periodic polling timer
(`_timer_poll_callback`, with the tick count and its `_raw_touch()`
result). -/
inductive TouchEvent
  | irq (time : Int) (pin_low : Bool) (raw : Option (Int × Int))
  | tick (time : Int) (raw : Option (Int × Int))

/-- `Touch._touch_irq_handler` (lines 252-292).  Edges closer than
`IRQ_DEBOUNCE_MS` to the previous accepted edge are ignored entirely.
`is_touch_down_now = not self.irq_pin.value()` is the carried pin level.
`_start_timer_polling`/`_stop_timer_polling` (lines 294-304) reduce to
setting `_timer_active` and (de)initialising the hardware timer. -/
def Touch.touch_irq_handler (width height : Int) (p : CalParams)
    (time : Int) (pin_low : Bool) (raw : Option (Int × Int))
    (s : TouchState) : TouchState :=
  if IRQ_DEBOUNCE_MS < time - s._last_irq_time then
    let s1 := { s with _last_irq_time := time }
    let is_touch_down_now := pin_low
    if is_touch_down_now && !s1._touch_down then
      -- Case 1: touch just started (lines 263-279)
      match raw with
      | none => s1
      | some r =>
          let sx := (Touch.normalize width height p r.1 r.2).1
          let sy := (Touch.normalize width height p r.1 r.2).2
          { s1 with
            _touch_down := true,
            _start_x := sx,
            _start_y := sy,
            _current_touch_x := sx,
            _current_touch_y := sy,
            _is_currently_touched := true,
            _touch_positions := [(sx, sy, time)],
            _timer_active := true }
    else if !is_touch_down_now && s1._touch_down then
      -- Case 2: touch just ended (lines 282-289)
      let s2 := { s1 with
        _touch_down := false,
        _is_currently_touched := false,
        _timer_active := false }
      let s3 := Touch.process_gesture s2
      { s3 with _touch_positions := [] }
    else s1
  else s

/-- `Touch._timer_poll_callback` (lines 306-327): while the touch is
down, append the normalized sample (when valid) to the trajectory and cap
its length; once `_touch_down` is observed false, stop the timer. -/
def Touch.timer_poll_callback (width height : Int) (p : CalParams)
    (time : Int) (raw : Option (Int × Int)) (s : TouchState) : TouchState :=
  if s._touch_down then
    match raw with
    | none => s
    | some r =>
        let sx := (Touch.normalize width height p r.1 r.2).1
        let sy := (Touch.normalize width height p r.1 r.2).2
        let ps := s._touch_positions ++ [(sx, sy, time)]
        let ps2 := if 50 < ps.length then ps.drop (ps.length - 25) else ps
        { s with
          _current_touch_x := sx,
          _current_touch_y := sy,
          _touch_positions := ps2 }
  else
    { s with _timer_active := false }

/-- One asynchronous trigger applied to the engine state. -/
def Touch.step (width height : Int) (p : CalParams) (s : TouchState) :
    TouchEvent → TouchState
  | .irq t pin raw => Touch.touch_irq_handler width height p t pin raw s
  | .tick t raw => Touch.timer_poll_callback width height p t raw s

/-- The engine state after a sequence of asynchronous triggers. -/
def Touch.run (width height : Int) (p : CalParams) (s : TouchState)
    (events : List TouchEvent) : TouchState :=
  events.foldl (Touch.step width height p) s

/-- Whether a contact is physically in progress after a sequence of
events: the pin level carried by the most recent edge event (low =
contact); initially there is no contact. -/
def pin_low_after (events : List TouchEvent) : Bool :=
  events.foldl
    (fun acc e =>
      match e with
      | .irq _ pin _ => pin
      | .tick _ _ => acc)
    false

/-- A press accepted at t=100 followed by a release edge at t=110, which
falls inside the 20 ms debounce window and is therefore ignored. -/
def debouncedReleaseEvents : List TouchEvent :=
  [TouchEvent.irq 100 true (some (500, 500)),
   TouchEvent.irq 110 false none]

/-- Counterexample to claim C9: after a press accepted at t=100 and a
release edge at t=110 — suppressed by the 20 ms debounce — the periodic
timer is still running although no contact is in progress, so the timer
IS left running across an IDLE period. -/
theorem timer_runs_after_debounced_release :
    (Touch.run 320 240 (defaultBounds false false false) Touch.initState
        debouncedReleaseEvents)._timer_active = true ∧
    pin_low_after debouncedReleaseEvents = false := by
  constructor <;> rfl

/-- The claim C9 invariant that actually holds: the timer is active only
while the handler's `_touch_down` flag is set. -/
def timerInv (s : TouchState) : Prop :=
  s._timer_active = true → s._touch_down = true

lemma process_gesture_timer_active (s : TouchState) :
    (Touch.process_gesture s)._timer_active = s._timer_active := by
  unfold Touch.process_gesture
  cases s._touch_positions with
  | nil => rfl
  | cons a l =>
    dsimp only
    split
    · rfl
    · split
      · split <;> split <;> rfl
      · rfl

lemma process_gesture_touch_down (s : TouchState) :
    (Touch.process_gesture s)._touch_down = s._touch_down := by
  unfold Touch.process_gesture
  cases s._touch_positions with
  | nil => rfl
  | cons a l =>
    dsimp only
    split
    · rfl
    · split
      · split <;> split <;> rfl
      · rfl

lemma step_preserves_timerInv (width height : Int) (p : CalParams)
    (s : TouchState) (e : TouchEvent) (h : timerInv s) :
    timerInv (Touch.step width height p s e) := by
  cases e with
  | irq t pin raw =>
    show timerInv (Touch.touch_irq_handler width height p t pin raw s)
    unfold Touch.touch_irq_handler
    by_cases hdb : IRQ_DEBOUNCE_MS < t - s._last_irq_time
    · rw [if_pos hdb]
      dsimp only
      by_cases hpress : (pin && !s._touch_down) = true
      · rw [if_pos hpress]
        cases raw with
        | none => intro hta; exact h hta
        | some r => intro _; rfl
      · rw [if_neg hpress]
        by_cases hrel : (!pin && s._touch_down) = true
        · rw [if_pos hrel]
          intro hta
          dsimp only at hta
          rw [process_gesture_timer_active] at hta
          simp at hta
        · rw [if_neg hrel]
          intro hta
          exact h hta
    · rw [if_neg hdb]
      exact h
  | tick t raw =>
    show timerInv (Touch.timer_poll_callback width height p t raw s)
    unfold Touch.timer_poll_callback
    by_cases htd : s._touch_down = true
    · rw [if_pos htd]
      cases raw with
      | none => exact h
      | some r => intro _; exact htd
    · rw [if_neg htd]
      intro hta
      simp at hta

/-- Claim C9 amended: in every reachable state the periodic timer is
active only while the handler's internal touch-in-progress flag
(`_touch_down`) is set, and every release edge that passes the 20 ms
debounce stops the timer; a release edge suppressed by the debounce is
ignored entirely, leaving `_touch_down` — and hence the running timer —
set across the following no-contact period (see the counterexample). -/
theorem timer_active_only_while_touch_down (width height : Int)
    (p : CalParams) (events : List TouchEvent) :
    timerInv (Touch.run width height p Touch.initState events) ∧
    ∀ (s : TouchState) (t : Int) (raw : Option (Int × Int)),
      timerInv s →
      IRQ_DEBOUNCE_MS < t - s._last_irq_time →
      (Touch.touch_irq_handler width height p t false raw s)._timer_active
        = false := by
  constructor
  · have hgen : ∀ (evs : List TouchEvent) (s : TouchState), timerInv s →
        timerInv (Touch.run width height p s evs) := by
      intro evs
      induction evs with
      | nil => intro s hs; exact hs
      | cons e evs ih =>
        intro s hs
        exact ih _ (step_preserves_timerInv width height p s e hs)
    exact hgen events Touch.initState (by intro h; exact absurd h (by decide))
  · intro s t raw hinv hdb
    unfold Touch.touch_irq_handler
    rw [if_pos hdb]
    dsimp only
    by_cases htd : s._touch_down = true
    · rw [if_neg (by simp), if_pos (by simp [htd])]
      dsimp only
      rw [process_gesture_timer_active]
    · rw [if_neg (by simp), if_neg (by simp [htd])]
      dsimp only
      cases hta : s._timer_active with
      | false => rfl
      | true =>
        have := hinv hta
        rw [this] at htd
        exact absurd rfl htd

/-- The engine state right after one accepted press, for the C9
witness. -/
def pressedState : TouchState :=
  Touch.run 320 240 (defaultBounds false false false) Touch.initState
    [TouchEvent.irq 100 true (some (500, 500))]

/-- Witness for C9 amended: after a concrete accepted press the timer
runs with `_touch_down` set, and a release edge at t=200 (outside the
debounce window) stops the timer. -/
theorem timer_active_only_while_touch_down_witness :
    pressedState._timer_active = true ∧
    pressedState._touch_down = true ∧
    (Touch.touch_irq_handler 320 240 (defaultBounds false false false)
        200 false none pressedState)._timer_active = false :=
  ⟨rfl,
   (timer_active_only_while_touch_down 320 240 (defaultBounds false false false)
      [TouchEvent.irq 100 true (some (500, 500))]).1 rfl,
   (timer_active_only_while_touch_down 320 240 (defaultBounds false false false)
      [TouchEvent.irq 100 true (some (500, 500))]).2 pressedState 200 none
     (by intro h; rfl) (by decide)⟩

/-- Claim C8: with bounds `x:[100,1962]`, `y:[100,1900]`, no swap and no
flips, on a 320×240 screen, raw `(100,100)` normalizes to `(0,0)` and raw
`(1962,1900)` normalizes to `(319,239)` after clamping. -/
theorem normalize_end_to_end_scenario :
    Touch.normalize 320 240 (defaultBounds false false false) 100 100 = (0, 0) ∧
    Touch.normalize 320 240 (defaultBounds false false false) 1962 1900 =
      (319, 239) := by
  constructor <;> decide

end EasyTouch
